import Mathlib

/-!
Verification of the adgo Active Directory LDAP reconnaissance tool.

This file is a shallow embedding, in Lean 4, of the parts of the Go source
that the specification's claims are about:

* `analyze` — attribute decoding: `ParseFileTimeToTime`, `AccountExpires`
  (src/analyze/time.go), `ParseUserAccountControl` (src/analyze/uac.go),
  `ParseObjectGUID` (src/analyze/acl.go).
* `queries` — the query registry (src/queries/queries.go): the literal
  filter strings, `Get`, and the `QueryBuilder`.
* `connect` — the resilience layer (src/connect/resilient.go,
  src/connect/retry.go) and TLS version negotiation (connect configuration
  file, `dialWithTLSNegotiation` / `isTLSError`).

Machine integers are modelled as `Nat`/`Int` with explicit wrap-around where
Go wraps; `fmt.Errorf` sites are modelled as constructors of small error
types (one constructor per distinct error site), since the claims only
distinguish which error occurred, not its exact text.
-/

namespace analyze

/-! ## Decimal parsing (Go strconv.ParseInt / strconv.ParseUint, base 10) -/

/-- Value of an ASCII decimal digit, `none` for any other character. -/
def digitVal (c : Char) : Option Nat :=
  if '0' ≤ c ∧ c ≤ '9' then some (c.toNat - '0'.toNat) else none

/-- Decimal value of a character list: `some` exactly when the list is
nonempty and all characters are ASCII digits (the digit loop shared by Go's
`strconv.ParseInt`/`ParseUint` in base 10). -/
def decDigits : List Char → Option Nat
  | [] => none
  | l => l.foldlM (fun acc c => (digitVal c).map (fun d => acc * 10 + d)) 0

/-- Model of Go `strconv.ParseInt(s, 10, 64)`: optional single leading
`+`/`-` sign, one or more decimal digits, result within the `int64` range.
Any syntax or range failure is `none` (Go returns a non-nil error). -/
def parseInt64 (s : String) : Option Int :=
  match s.data with
  | '+' :: rest =>
    match decDigits rest with
    | some n => if n ≤ 9223372036854775807 then some (n : Int) else none
    | none => none
  | '-' :: rest =>
    match decDigits rest with
    | some n => if n ≤ 9223372036854775808 then some (-(n : Int)) else none
    | none => none
  | l =>
    match decDigits l with
    | some n => if n ≤ 9223372036854775807 then some (n : Int) else none
    | none => none

/-- Model of Go `strconv.ParseUint(s, 10, 32)`: decimal digits only (Go's
`ParseUint` does not permit a sign prefix), result below `2^32`. -/
def parseUint32 (s : String) : Option Nat :=
  match decDigits s.data with
  | some n => if n ≤ 4294967295 then some n else none
  | none => none

/-! ## UTC date-time formatting (Go time.Unix(...).UTC().Format(time.DateTime))

Go's time package uses the proleptic Gregorian calendar; `civilFromDays` is
the standard civil-from-days conversion producing (year, month, day) from a
count of days since 1970-01-01. -/

/-- Decimal rendering of `n` left-padded with zeros to width `w`
(Go's zero-padded verbs used by `time.Time.Format`). -/
def padNat (w n : Nat) : String :=
  let s := toString n
  if s.length < w then String.mk (List.replicate (w - s.length) '0') ++ s else s

/-- Gregorian (year, month, day) of the day `z` days after 1970-01-01. -/
def civilFromDays (z0 : Int) : Int × Nat × Nat :=
  let z := z0 + 719468
  let era := Int.fdiv z 146097
  let doe := (z - era * 146097).toNat
  let yoe := (doe - doe / 1460 + doe / 36524 - doe / 146096) / 365
  let doy := doe - (365 * yoe + yoe / 4 - yoe / 100)
  let mp := (5 * doy + 2) / 153
  let d := doy - (153 * mp + 2) / 5 + 1
  let m := if mp < 10 then mp + 3 else mp - 9
  ((yoe : Int) + era * 400 + (if m ≤ 2 then 1 else 0), m, d)

/-- Format Unix seconds as UTC `YYYY-MM-DD HH:MM:SS`
(Go `time.DateTime` layout). -/
def formatDateTime (secs : Int) : String :=
  let days := Int.fdiv secs 86400
  let sod := (secs - 86400 * days).toNat
  let ymd := civilFromDays days
  padNat 4 ymd.1.toNat ++ "-" ++ padNat 2 ymd.2.1 ++ "-" ++ padNat 2 ymd.2.2 ++ " " ++
    padNat 2 (sod / 3600) ++ ":" ++ padNat 2 (sod % 3600 / 60) ++ ":" ++ padNat 2 (sod % 60)

/-! ## src/analyze/time.go -/

/-- Constant from src/analyze/time.go line 13, transcribed exactly as the
source writes it: `FileTimeToUnixEpochDiff = 1164447360000000000`.  (The
source comment calls it the 1601-to-1970 difference in 100-nanosecond
intervals; that difference is 116444736000000000.) -/
def FileTimeToUnixEpochDiff : Int := 1164447360000000000

/-- Constant from src/analyze/time.go line 15. -/
def NanoSecondsPerHundredNanoSeconds : Int := 100

/-- Two's-complement wrap-around of Go `int64` arithmetic. -/
def wrapInt64 (n : Int) : Int := (n + 2 ^ 63) % 2 ^ 64 - 2 ^ 63

/-- Error sites of `ParseFileTimeToTime` (src/analyze/time.go lines 65-88),
one constructor per `fmt.Errorf` call. -/
inductive FileTimeError
  | emptyInput
  | parseFailure
  | zeroValue
  | invalidValue
deriving DecidableEq, Repr

/-- Model of `ParseFileTimeToTime` (src/analyze/time.go lines 64-93).
`time.Unix(0, unixNano)` floors nanoseconds to seconds; the `int64`
multiplication wraps as in Go. -/
def ParseFileTimeToTime (fileTimeStr : String) : Except FileTimeError String :=
  if fileTimeStr = "" then .error .emptyInput
  else
    match parseInt64 fileTimeStr with
    | none => .error .parseFailure
    | some fileTime =>
      if fileTime = 0 then .error .zeroValue
      else if FileTimeToUnixEpochDiff ≤ fileTime then
        let unixNano := wrapInt64 ((fileTime - FileTimeToUnixEpochDiff) *
          NanoSecondsPerHundredNanoSeconds)
        .ok (formatDateTime (Int.fdiv unixNano 1000000000))
      else .error .invalidValue

/-- Error sites of `AccountExpires` (src/analyze/time.go lines 108-125). -/
inductive AccountExpiresError
  | invalidValue
  | outOfRange
deriving DecidableEq, Repr

/-- Model of `AccountExpires` (src/analyze/time.go lines 99-135), as a
function of the attribute value string `b` fetched by
`entry.GetAttributeValue`.  Go's `/` on integers truncates toward zero,
which is `Int.tdiv`. -/
def AccountExpires (b : String) : Except AccountExpiresError String :=
  if b = "" then .ok ""
  else
    match parseInt64 b with
    | none => .error .invalidValue
    | some ft =>
      if ft = 0 ∨ ft = 9223372036854775807 then .ok "9223372036854775807, never"
      else
        let unixTime := Int.tdiv (ft - 116444736000000000) 10000000
        if unixTime < 0 then .error .outOfRange
        else .ok (b ++ "," ++ formatDateTime unixTime)

/-! ## src/analyze/uac.go -/

/-- UserAccountControl flag constants (src/analyze/uac.go lines 10-27). -/
def UF_ACCOUNTDISABLE : Nat := 0x0002

/-- The account is a typical user account. -/
def UF_NORMAL_ACCOUNT : Nat := 0x0200

/-- Trusted-domain account flag. -/
def UF_INTERDOMAIN_TRUST_ACCOUNT : Nat := 0x0800

/-- Workstation/server computer account flag. -/
def UF_WORKSTATION_TRUST_ACCOUNT : Nat := 0x1000

/-- Domain-controller computer account flag. -/
def UF_SERVER_TRUST_ACCOUNT : Nat := 0x2000

/-- Delegation-enabled flag. -/
def UF_TRUSTED_FOR_DELEGATION : Nat := 0x80000

/-- Expired-password flag. -/
def UF_PASSWORD_EXPIRED : Nat := 0x800000

/-- Compound constant (src/analyze/uac.go line 31). -/
def UF_WORKSTATION_OR_SERVER : Nat := UF_WORKSTATION_TRUST_ACCOUNT ||| UF_SERVER_TRUST_ACCOUNT

/-- Compound constant (src/analyze/uac.go line 32). -/
def UF_DOMAIN_CONTROLLER : Nat := UF_SERVER_TRUST_ACCOUNT ||| UF_TRUSTED_FOR_DELEGATION

/-- Error of `ParseUserAccountControl` (src/analyze/uac.go line 48). -/
inductive UACError
  | parseFailure
deriving DecidableEq, Repr

/-- Model of `ParseUserAccountControl` (src/analyze/uac.go lines 44-71):
`strconv.ParseUint(uacStr, 10, 32)` followed by an exact-value switch over
the compound constants, in source order. -/
def ParseUserAccountControl (uacStr : String) : Except UACError String :=
  match parseUint32 uacStr with
  | none => .error .parseFailure
  | some uac =>
    if uac = UF_DOMAIN_CONTROLLER then .ok (toString uac ++ ", Domain Controller")
    else if uac = UF_WORKSTATION_OR_SERVER then .ok (toString uac ++ ", Workstation / Server")
    else if uac = UF_INTERDOMAIN_TRUST_ACCOUNT ||| UF_PASSWORD_EXPIRED then
      .ok (toString uac ++ ", Krbtgt (Expired)")
    else if uac = UF_INTERDOMAIN_TRUST_ACCOUNT then .ok (toString uac ++ ", Krbtgt")
    else if uac = UF_NORMAL_ACCOUNT ||| UF_ACCOUNTDISABLE then
      .ok (toString uac ++ ", Disabled User")
    else if uac = UF_NORMAL_ACCOUNT then .ok (toString uac ++ ", User")
    else .ok (toString uac ++ ", Unknown")

/-! ## src/analyze/acl.go — ParseObjectGUID -/

/-- Lowercase hex digit of `n % 16` values (the `%x` verb digit set). -/
def hexDigit (n : Nat) : Char :=
  if n < 10 then Char.ofNat ('0'.toNat + n) else Char.ofNat ('a'.toNat + (n - 10))

/-- Exactly `w` lowercase hex digits of `n`, zero padded — the `%08x`,
`%04x` and `%02x` verbs of the Sprintf call; each argument is below `16^w`
by its Go integer type, so zero padding to width `w` is exact. -/
def hexPad : Nat → Nat → List Char
  | 0, _ => []
  | w + 1, n => hexPad w (n / 16) ++ [hexDigit (n % 16)]

/-- Error of `ParseObjectGUID` (src/analyze/acl.go line 425). -/
inductive GuidError
  | invalidLength
deriving DecidableEq, Repr

/-- Model of `ParseObjectGUID` (src/analyze/acl.go lines 422-437) on the
raw byte values (each below 256 by the Go `byte` type): field 1 is the
little-endian uint32 of bytes 0-3, fields 2-3 the little-endian uint16 of
bytes 4-5 and 6-7, field 4 the big-endian uint16 of bytes 8-9, and the
remaining six bytes are printed raw with `%02x`. -/
def ParseObjectGUID (binaryGUID : List Nat) : Except GuidError String :=
  if binaryGUID.length = 16 then
    .ok (String.mk ('\x7b' ::
      (hexPad 8 (binaryGUID.getD 0 0 + 256 * binaryGUID.getD 1 0 +
        65536 * binaryGUID.getD 2 0 + 16777216 * binaryGUID.getD 3 0) ++ '-' ::
      (hexPad 4 (binaryGUID.getD 4 0 + 256 * binaryGUID.getD 5 0) ++ '-' ::
      (hexPad 4 (binaryGUID.getD 6 0 + 256 * binaryGUID.getD 7 0) ++ '-' ::
      (hexPad 4 (256 * binaryGUID.getD 8 0 + binaryGUID.getD 9 0) ++ '-' ::
      ((hexPad 2 (binaryGUID.getD 10 0) ++ (hexPad 2 (binaryGUID.getD 11 0) ++
        (hexPad 2 (binaryGUID.getD 12 0) ++ (hexPad 2 (binaryGUID.getD 13 0) ++
        (hexPad 2 (binaryGUID.getD 14 0) ++ hexPad 2 (binaryGUID.getD 15 0)))))) ++
        ['\x7d'])))))))
  else .error .invalidLength

/-- Character class `[0-9a-f]`. -/
def isHexLower (c : Char) : Bool := ('0' ≤ c && c ≤ '9') || ('a' ≤ c && c ≤ 'f')

/-- Consume exactly `n` characters of class `[0-9a-f]`, returning the
remaining characters. -/
def hexRunN : Nat → List Char → Option (List Char)
  | 0, l => some l
  | n + 1, c :: l => if isHexLower c then hexRunN n l else none
  | _ + 1, [] => none

/-- Consume one expected character. -/
def expectChar (c : Char) : List Char → Option (List Char)
  | x :: t => if x = c then some t else none
  | [] => none

/-- Matcher for the regular expression
`^\x7b[0-9a-f]\x7b8\x7d-[0-9a-f]\x7b4\x7d-[0-9a-f]\x7b4\x7d-[0-9a-f]\x7b4\x7d-[0-9a-f]\x7b12\x7d\x7d$`
after the leading brace. -/
def guidShapeAux (t0 : List Char) : Bool :=
  (do
    let t1 ← hexRunN 8 t0
    let t2 ← expectChar '-' t1
    let t3 ← hexRunN 4 t2
    let t4 ← expectChar '-' t3
    let t5 ← hexRunN 4 t4
    let t6 ← expectChar '-' t5
    let t7 ← hexRunN 4 t6
    let t8 ← expectChar '-' t7
    let t9 ← hexRunN 12 t8
    let t10 ← expectChar '\x7d' t9
    if t10 = [] then some () else none).isSome

/-- GUID shape on a character list: an opening brace, then
`guidShapeAux`. -/
def guidShapeL : List Char → Bool
  | c :: t => c = '\x7b' && guidShapeAux t
  | [] => false

/-- GUID shape of a string: the regex of spec §8 property 2. -/
def guidShape (s : String) : Bool := guidShapeL s.data

theorem hexDigit_isHexLower : ∀ n < 16, isHexLower (hexDigit n) = true := by
  decide

theorem hexPad_length (w : Nat) : ∀ n, (hexPad w n).length = w := by
  induction w with
  | zero => intro n; rfl
  | succ w ih => intro n; simp [hexPad, ih]

theorem hexPad_hex (w : Nat) : ∀ n, ∀ c ∈ hexPad w n, isHexLower c = true := by
  induction w with
  | zero => intro n c hc; simp [hexPad] at hc
  | succ w ih =>
    intro n c hc
    simp only [hexPad, List.mem_append, List.mem_singleton] at hc
    rcases hc with hc | hc
    · exact ih _ c hc
    · subst hc
      exact hexDigit_isHexLower _ (Nat.mod_lt _ (by norm_num))

theorem hexRunN_append (l r : List Char) (h : ∀ c ∈ l, isHexLower c = true) :
    hexRunN l.length (l ++ r) = some r := by
  induction l with
  | nil => rfl
  | cons c l ih =>
    simp only [List.length_cons, List.cons_append, hexRunN,
      h c (by simp), if_true]
    exact ih (fun x hx => h x (by simp [hx]))

theorem guidShapeL_build (h8 h4a h4b h4c h12 : List Char)
    (l8 : h8.length = 8) (l4a : h4a.length = 4) (l4b : h4b.length = 4)
    (l4c : h4c.length = 4) (l12 : h12.length = 12)
    (a8 : ∀ c ∈ h8, isHexLower c = true) (a4a : ∀ c ∈ h4a, isHexLower c = true)
    (a4b : ∀ c ∈ h4b, isHexLower c = true) (a4c : ∀ c ∈ h4c, isHexLower c = true)
    (a12 : ∀ c ∈ h12, isHexLower c = true) :
    guidShapeL ('\x7b' :: (h8 ++ '-' :: (h4a ++ '-' :: (h4b ++ '-' ::
      (h4c ++ '-' :: (h12 ++ ['\x7d'])))))) = true := by
  have e8 := hexRunN_append h8
    ('-' :: (h4a ++ '-' :: (h4b ++ '-' :: (h4c ++ '-' :: (h12 ++ ['\x7d']))))) a8
  have e4a := hexRunN_append h4a
    ('-' :: (h4b ++ '-' :: (h4c ++ '-' :: (h12 ++ ['\x7d'])))) a4a
  have e4b := hexRunN_append h4b ('-' :: (h4c ++ '-' :: (h12 ++ ['\x7d']))) a4b
  have e4c := hexRunN_append h4c ('-' :: (h12 ++ ['\x7d'])) a4c
  have e12 := hexRunN_append h12 (['\x7d']) a12
  rw [l8] at e8
  rw [l4a] at e4a
  rw [l4b] at e4b
  rw [l4c] at e4c
  rw [l12] at e12
  simp [guidShapeL, guidShapeAux, e8, e4a, e4b, e4c, e12, expectChar]

theorem seg12_length (x1 x2 x3 x4 x5 x6 : Nat) :
    (hexPad 2 x1 ++ (hexPad 2 x2 ++ (hexPad 2 x3 ++ (hexPad 2 x4 ++
      (hexPad 2 x5 ++ hexPad 2 x6))))).length = 12 := by
  simp [hexPad_length]

theorem seg12_hex (x1 x2 x3 x4 x5 x6 : Nat) :
    ∀ c ∈ hexPad 2 x1 ++ (hexPad 2 x2 ++ (hexPad 2 x3 ++ (hexPad 2 x4 ++
      (hexPad 2 x5 ++ hexPad 2 x6)))), isHexLower c = true := by
  intro c hc
  simp only [List.mem_append] at hc
  rcases hc with h | h | h | h | h | h <;> exact hexPad_hex 2 _ c h

/-- Claim C8: every 16-byte input succeeds with a string matching the GUID
regex shape (built as little-endian uint32, two little-endian uint16, a
big-endian uint16 and six raw bytes); the stated concrete bytes yield the
stated literal; every other length errors. -/
theorem C8_guid_format :
    (∀ l : List Nat, l.length = 16 →
      ∃ s, ParseObjectGUID l = .ok s ∧ guidShape s = true) ∧
    ParseObjectGUID ([0xd0, 0xcf, 0x11, 0xe0, 0xa1, 0xb1, 0x1a, 0xe1,
      0x00, 0x00, 0x00, 0x00, 0x00, 0x00, 0x00, 0x46]) =
      .ok ("\x7be011cfd0-b1a1-e11a-0000-000000000046\x7d") ∧
    (∀ l : List Nat, l.length ≠ 16 →
      ParseObjectGUID l = .error .invalidLength) := by
  refine ⟨?_, by rfl, ?_⟩
  · intro l hl
    refine ⟨_, by unfold ParseObjectGUID; rw [if_pos hl], ?_⟩
    exact guidShapeL_build _ _ _ _ _ (hexPad_length 8 _) (hexPad_length 4 _)
      (hexPad_length 4 _) (hexPad_length 4 _)
      (seg12_length _ _ _ _ _ _) (hexPad_hex 8 _)
      (hexPad_hex 4 _) (hexPad_hex 4 _) (hexPad_hex 4 _)
      (seg12_hex _ _ _ _ _ _)
  · intro l hl
    unfold ParseObjectGUID
    rw [if_neg hl]

/-- Claim C8, witness: the universally quantified parts of the theorem
applied at the stated 16-byte input and at the empty input. -/
theorem C8_witness :
    (∃ s, ParseObjectGUID ([0xd0, 0xcf, 0x11, 0xe0, 0xa1, 0xb1, 0x1a, 0xe1,
      0x00, 0x00, 0x00, 0x00, 0x00, 0x00, 0x00, 0x46]) = .ok s ∧
      guidShape s = true) ∧
    ParseObjectGUID ([]) = .error .invalidLength :=
  ⟨C8_guid_format.1 _ (by rfl), C8_guid_format.2.2 ([]) (by decide)⟩

end analyze

deriving instance DecidableEq for Except

/-- Claim C1: the spec says every FILETIME of at least 116444736000000000
(1970-01-01 in 100-ns ticks) formats with no error and 0 errors.  The code
contradicts its own documentation: its epoch constant 1164447360000000000
has an extra digit (10 × the true 100-ns epoch difference — the same file's
`AccountExpires` uses the correct 116444736000000000), so the boundary
input "116444736000000000" is rejected as invalid instead of formatting as
"1970-01-01 00:00:00". -/
theorem C1_filetime_epoch_code_bug :
    analyze.ParseFileTimeToTime ("116444736000000000") =
      .error .invalidValue ∧
    analyze.ParseFileTimeToTime ("0") = .error .zeroValue ∧
    analyze.FileTimeToUnixEpochDiff = 10 * 116444736000000000 := by
  refine ⟨by rfl, by rfl, by decide⟩

/-- Claim C4, counterexample: decoding userAccountControl "514" does not
yield "514, Unknown" — 514 = NORMAL_ACCOUNT ||| ACCOUNTDISABLE hits the
"Disabled User" arm of the switch (src/analyze/uac.go line 63). -/
theorem C4_counterexample :
    analyze.ParseUserAccountControl ("514") ≠ .ok ("514, Unknown") := by
  decide

/-- Claim C4, amended: decoding userAccountControl "514" returns
"514, Disabled User" (the NORMAL_ACCOUNT ||| ACCOUNTDISABLE arm). -/
theorem C4_uac_514_disabled_user :
    analyze.ParseUserAccountControl ("514") = .ok ("514, Disabled User") := by
  rfl

/-- Claim C9, counterexample: the value 116444735999999999 parses to an
integer strictly between 0 and 116444736000000000 (a FILETIME before
1970-01-01), yet `AccountExpires` renders it as a date instead of erroring:
Go's truncated division sends every value within 10^7 ticks below the epoch
to quotient 0, which passes the `unixTime < 0` check. -/
theorem C9_counterexample :
    analyze.AccountExpires ("116444735999999999") =
      .ok ("116444735999999999,1970-01-01 00:00:00") ∧
    analyze.parseInt64 ("116444735999999999") = some 116444735999999999 ∧
    (0 : Int) < 116444735999999999 ∧
    (116444735999999999 : Int) < 116444736000000000 := by
  refine ⟨by rfl, by rfl, by decide, by decide⟩

/-- Claim C9, amended: `AccountExpires` errors on a positive pre-1970
FILETIME only when the truncated quotient is negative, i.e. when the value
is at most 116444736000000000 − 10^7; every value parsing to an integer in
the window strictly between 116444736000000000 − 10^7 and
116444736000000000 instead renders as the raw string followed by
`,1970-01-01 00:00:00` (the truncated quotient is 0); non-numeric values
fail with a parse error; and the empty value yields the empty string with
no error. -/
theorem C9_account_expires_amended :
    (analyze.AccountExpires ("") = .ok ("")) ∧
    (∀ s : String, s ≠ "" → analyze.parseInt64 s = none →
      analyze.AccountExpires s = .error .invalidValue) ∧
    (∀ s : String, ∀ v : Int, analyze.parseInt64 s = some v → 0 < v →
      v ≤ 116444735990000000 →
      analyze.AccountExpires s = .error .outOfRange) ∧
    (∀ s : String, ∀ v : Int, analyze.parseInt64 s = some v →
      116444735990000000 < v → v < 116444736000000000 →
      analyze.AccountExpires s = .ok (s ++ "," ++ "1970-01-01 00:00:00")) := by
  refine ⟨by rfl, ?_, ?_, ?_⟩
  · intro s hs hp
    unfold analyze.AccountExpires
    rw [if_neg hs, hp]
  · intro s v hp hpos hle
    unfold analyze.AccountExpires
    have hs : s ≠ "" := by
      intro h
      subst h
      simp [analyze.parseInt64, analyze.decDigits] at hp
    rw [if_neg hs, hp]
    have hne : ¬(v = 0 ∨ v = 9223372036854775807) := by omega
    have hneg : Int.tdiv (v - 116444736000000000) 10000000 < 0 := by
      have hnn : (0 : Int) ≤ -(v - 116444736000000000) := by omega
      have h1 : Int.tdiv (-(v - 116444736000000000)) 10000000 =
          (-(v - 116444736000000000)) / 10000000 :=
        Int.tdiv_eq_ediv hnn (by norm_num)
      have h3 : (1 : Int) ≤ (-(v - 116444736000000000)) / 10000000 := by
        rw [Int.le_ediv_iff_mul_le (by norm_num)]
        omega
      have h4 : Int.tdiv (-(v - 116444736000000000)) 10000000 =
          -(Int.tdiv (v - 116444736000000000) 10000000) :=
        Int.neg_tdiv _ 10000000
      omega
    simp only [if_neg hne, if_pos hneg]
  · intro s v hp hlow hhigh
    unfold analyze.AccountExpires
    have hs : s ≠ "" := by
      intro h
      subst h
      simp [analyze.parseInt64, analyze.decDigits] at hp
    rw [if_neg hs, hp]
    have hne : ¬(v = 0 ∨ v = 9223372036854775807) := by omega
    have hzero : Int.tdiv (v - 116444736000000000) 10000000 = 0 := by
      have hnn : (0 : Int) ≤ -(v - 116444736000000000) := by omega
      have h1 : Int.tdiv (-(v - 116444736000000000)) 10000000 =
          (-(v - 116444736000000000)) / 10000000 :=
        Int.tdiv_eq_ediv hnn (by norm_num)
      have h2 : (-(v - 116444736000000000)) / 10000000 = 0 :=
        Int.ediv_eq_zero_of_lt hnn (by omega)
      have h4 : Int.tdiv (-(v - 116444736000000000)) 10000000 =
          -(Int.tdiv (v - 116444736000000000) 10000000) :=
        Int.neg_tdiv _ 10000000
      omega
    have hnneg : ¬ ((0 : Int) < 0) := by norm_num
    have hfmt : analyze.formatDateTime 0 = "1970-01-01 00:00:00" := by rfl
    simp only [if_neg hne, hzero, if_neg hnneg, hfmt]

/-- Claim C9, witness: the amended theorem applied at the concrete value
116444735990000000 (equal to the error cut-off 116444736000000000 − 10^7),
at a value inside the quotient-zero window, at a non-numeric value, and at
the empty string. -/
theorem C9_witness :
    analyze.AccountExpires ("116444735990000000") = .error .outOfRange ∧
    analyze.AccountExpires ("116444735995000000") =
      .ok ("116444735995000000" ++ "," ++ "1970-01-01 00:00:00") ∧
    analyze.AccountExpires ("never") = .error .invalidValue ∧
    analyze.AccountExpires ("") = .ok ("") := by
  refine ⟨?_, ?_, ?_, C9_account_expires_amended.1⟩
  · exact C9_account_expires_amended.2.2.1 ("116444735990000000")
      116444735990000000 (by rfl) (by decide) (by decide)
  · exact C9_account_expires_amended.2.2.2 ("116444735995000000")
      116444735995000000 (by rfl) (by decide) (by decide)
  · exact C9_account_expires_amended.2.1 ("never") (by decide) (by rfl)

namespace queries

/-- Query record (src/queries/queries.go lines 11-14). -/
structure Query where
  Filter : String
  Attributes : List String
deriving DecidableEq, Repr

/-- The map `defaultQuickQueries` (src/queries/queries.go lines 75-334) as
an association list; the `fmt.Sprintf` calls are evaluated with the
`analyze` constants (Attr* names, OIDMatchRuleBitOr =
"1.2.840.113556.1.4.803", OIDMatchRuleBitAnd = "1.2.840.113556.1.4.804",
UACAccountDisable = 2, UACDontRequirePreauth = 4194304,
UACTrustedForDelegation = 524288, UACDomainController = 532480). -/
def defaultQuickQueries : List (String × Query) := [
  ("users", ⟨"(objectClass=user)",
    ["sAMAccountName", "userPrincipalName", "userAccountControl",
     "msDS-AllowedToDelegateTo", "msDS-AllowedToActOnBehalfOfOtherIdentity"]⟩),
  ("computers", ⟨"(objectClass=computer)",
    ["name", "operatingSystem", "dNSHostName", "userAccountControl",
     "msDS-AllowedToDelegateTo", "msDS-AllowedToActOnBehalfOfOtherIdentity"]⟩),
  ("dc", ⟨"(&(objectClass=computer)(userAccountControl:1.2.840.113556.1.4.803:=532480))",
    ["name", "operatingSystem", "dNSHostName", "userAccountControl",
     "msDS-AllowedToDelegateTo", "msDS-AllowedToActOnBehalfOfOtherIdentity"]⟩),
  ("ou", ⟨"(objectClass=organizationalUnit)", ["name", "distinguishedName"]⟩),
  ("spn", ⟨"(&(servicePrincipalName=*))", ["dn", "cn", "servicePrincipalName"]⟩),
  ("adminSDHolder", ⟨"(&(objectCategory=person)(sAMAccountName=*)(adminCount=1))",
    ["cn", "sAMAccountName"]⟩),
  ("group", ⟨"(&(objectCategory=group)(adminCount=1))",
    ["name", "member", "memberOf", "groupType"]⟩),
  ("disabled", ⟨"(userAccountControl:1.2.840.113556.1.4.803:=2)",
    ["dn", "sAMAccountName", "userPrincipalName", "lastLogonTimestamp"]⟩),
  ("admin", ⟨"(&(|(&(objectCategory=person)(objectClass=user))(objectCategory=group))(adminCount=1))",
    ["dn", "cn", "member"]⟩),
  ("enterprise", ⟨"(sAMAccountName=Enterprise Admins)", ["dn", "cn", "member"]⟩),
  ("trustDomain", ⟨"(objectClass=trustedDomain)",
    ["name", "trustDirection", "trustType", "trustAttributes", "flatName",
     "distinguishedName"]⟩),
  ("trustattributes", ⟨"(&(objectClass=trustedDomain)(trustAttributes=*))",
    ["name", "trustAttributes", "trustDirection", "trustType"]⟩),
  ("sidhistory", ⟨"(sIDHistory=*)", ["dn", "cn", "sAMAccountName", "sIDHistory"]⟩),
  ("gpo", ⟨"(objectClass=groupPolicyContainer)",
    ["name", "displayName", "versionNumber", "gPCFileSysPath", "whenChanged"]⟩),
  ("gpomachine", ⟨"(&(objectCategory=groupPolicyContainer)(gPCMachineExtensionNames=*))",
    ["name", "displayName", "gPCMachineExtensionNames"]⟩),
  ("gpouser", ⟨"(&(objectCategory=groupPolicyContainer)(gPCUserExtensionNames=*))",
    ["name", "displayName", "gPCUserExtensionNames"]⟩),
  ("asreproast", ⟨"(&(userAccountControl:1.2.840.113556.1.4.803:=4194304)(!(userAccountControl:1.2.840.113556.1.4.803:=2))(!(objectCategory=computer)))",
    ["dn", "sAMAccountName"]⟩),
  ("kerberoasting", ⟨"(&(!(userAccountControl:1.2.840.113556.1.4.803:=2))(samAccountType=805306368)(servicePrincipalName=*)(!sAMAccountName=krbtgt))",
    ["dn", "sAMAccountName", "servicePrincipalName"]⟩),
  ("delegate", ⟨"(msDS-AllowedToDelegateTo=*)",
    ["dn", "cn", "sAMAccountName", "msDS-AllowedToDelegateTo"]⟩),
  ("unconstraineddelegate", ⟨"(userAccountControl:1.2.840.113556.1.4.803:=524288)",
    ["dn", "cn", "sAMAccountName", "userAccountControl", "objectClass"]⟩),
  ("constraineddelegate", ⟨"(msDS-AllowedToDelegateTo=*)",
    ["dn", "cn", "sAMAccountName", "msDS-AllowedToDelegateTo", "objectClass"]⟩),
  ("resourceconstraineddelegate", ⟨"(msDS-AllowedToActOnBehalfOfOtherIdentity=*)",
    ["dn", "cn", "sAMAccountName", "msDS-AllowedToActOnBehalfOfOtherIdentity",
     "objectClass"]⟩),
  ("caComputer", ⟨"(&(objectCategory=pKIEnrollmentService))", ["cn"]⟩),
  ("esc1", ⟨"(&(objectClass=pkicertificatetemplate)(!(mspki-enrollment-flag:1.2.840.113556.1.4.804:=2))(|(mspki-ra-signature=0)(!(mspki-ra-signature=*)))(|(pkiextendedkeyusage=1.3.6.1.4.1.311.20.2.2)(pkiextendedkeyusage=1.3.6.1.5.5.7.3.2)(pkiextendedkeyusage=1.3.6.1.5.2.3.4)(pkiextendedkeyusage=2.5.29.37.0)(!(pkiextendedkeyusage=*)))(mspki-certificate-name-flag:1.2.840.113556.1.4.804:=1)(!(cn=OfflineRouter))(!(cn=CA))(!(cn=SubCA)))",
    ["cn"]⟩),
  ("esc2", ⟨"(&(objectClass=pkicertificatetemplate)(!(mspki-enrollment-flag:1.2.840.113556.1.4.804:=2))(|(mspki-ra-signature=0)(!(mspki-ra-signature=*)))(|(pkiextendedkeyusage=2.5.29.37.0)(!(pkiextendedkeyusage=*)))(!(cn=CA))(!(cn=SubCA)))",
    ["cn"]⟩),
  ("machineAccountQuota", ⟨"(objectClass=domain)", ["ms-DS-MachineAccountQuota"]⟩)]

/-- The map `defaultPermissionQueries` (src/queries/queries.go lines
337-458) as an association list. -/
def defaultPermissionQueries : List (String × Query) := [
  ("permissions", ⟨"(&(objectClass=user)(sAMAccountName=*))",
    ["sAMAccountName", "userPrincipalName", "memberOf", "adminCount",
     "userAccountControl"]⟩),
  ("highpriv", ⟨"(&(objectClass=user)(adminCount=1))",
    ["sAMAccountName", "userPrincipalName", "memberOf", "adminCount",
     "userAccountControl"]⟩),
  ("domainadmins", ⟨"(&(objectClass=group)(sAMAccountName=Domain Admins))",
    ["member", "distinguishedName", "groupType"]⟩),
  ("enterpriseadmins", ⟨"(&(objectClass=group)(sAMAccountName=Enterprise Admins))",
    ["member", "distinguishedName", "groupType"]⟩),
  ("schemaadmins", ⟨"(&(objectClass=group)(sAMAccountName=Schema Admins))",
    ["member", "distinguishedName", "groupType"]⟩),
  ("adminholders", ⟨"(&(objectCategory=person)(sAMAccountName=*)(adminCount=1))",
    ["sAMAccountName", "distinguishedName", "memberOf", "adminCount"]⟩),
  ("groupnested", ⟨"(&(objectClass=group)(member=*))",
    ["cn", "member", "distinguishedName", "groupType"]⟩),
  ("sensitivegroups", ⟨"(&(objectClass=group)(|(sAMAccountName=Domain Admins)(sAMAccountName=Enterprise Admins)(sAMAccountName=Schema Admins)(sAMAccountName=Administrators)(sAMAccountName=Domain Controllers)(sAMAccountName=Enterprise Key Admins)(sAMAccountName=Domain Key Admins)))",
    ["sAMAccountName", "member", "distinguishedName"]⟩),
  ("managedby", ⟨"(&(managedBy=*))", ["cn", "distinguishedName", "managedBy"]⟩),
  ("acl", ⟨"(&(objectClass=*)(nTSecurityDescriptor=*))",
    ["cn", "distinguishedName", "nTSecurityDescriptor"]⟩)]

/-- The map `DomainSpecificQueries` (src/queries/queries.go lines 461-479).
It is a package variable that `init()` (lines 27-37) does NOT register. -/
def DomainSpecificQueries : List (String × Query) := [
  ("dcclonerights", ⟨"(&(objectClass=user)(|(userAccountControl:1.2.840.113556.1.4.803:=128)(memberOf:1.2.840.113556.1.4.1941:=CN=Cloneable Domain Controllers,CN=Users,\x7bdomain\x7d)))",
    ["dn", "cn", "sAMAccountName", "memberOf"]⟩),
  ("dcsync", ⟨"(&(objectClass=user)(|(memberOf:1.2.840.113556.1.4.1941:=CN=Domain Admins,CN=Users,\x7bdomain\x7d)(memberOf:1.2.840.113556.1.4.1941:=CN=Enterprise Admins,CN=Users,\x7bdomain\x7d)(memberOf:1.2.840.113556.1.4.1941:=CN=Administrators,CN=Builtin,\x7bdomain\x7d)))",
    ["dn", "cn", "sAMAccountName", "memberOf"]⟩)]

/-- Contents of the process-wide registry after `init()`
(src/queries/queries.go lines 27-37): the quick queries and the permission
queries, and nothing else. -/
def registryQueries : List (String × Query) :=
  defaultQuickQueries ++ defaultPermissionQueries

/-- Model of `Get` (src/queries/queries.go lines 45-48): map lookup in the
registry, `none` for an unknown name. -/
def Get (name : String) : Option Query := registryQueries.lookup name

/-- Well-formedness predicate of spec §8 property 1, following the checks
of `ValidateFilter`: balanced parentheses, starts with `(`, ends with `)`,
length at most 4096. -/
def balAux : Nat → List Char → Bool
  | d, [] => d = 0
  | d, c :: l =>
    if c = '(' then balAux (d + 1) l
    else if c = ')' then decide (0 < d) && balAux (d - 1) l
    else balAux d l

/-- Balanced-parentheses check on a string. -/
def balancedParens (s : String) : Bool := balAux 0 s.data

/-- The conjunction of the four filter invariants claimed by spec §8
property 1. -/
def filterOk (q : Query) : Bool :=
  balancedParens q.Filter && q.Filter.data.head? == some '(' &&
    q.Filter.data.getLast? == some ')' && decide (q.Filter.length ≤ 4096)

end queries

/-- Claim C3: of the twelve catalog names, eleven are registered with the
documented filters, but "dcsync" is not: it lives in
`DomainSpecificQueries`, which `init()` never registers (the repository's
own `TestDomainSpecificQueries` expects `Get("dcsync")` to succeed, so the
code contradicts its own test). -/
theorem C3_dcsync_not_registered :
    (queries.Get ("users")).map queries.Query.Filter = some ("(objectClass=user)") ∧
    (queries.Get ("computers")).map queries.Query.Filter = some ("(objectClass=computer)") ∧
    (queries.Get ("dc")).map queries.Query.Filter =
      some ("(&(objectClass=computer)(userAccountControl:1.2.840.113556.1.4.803:=532480))") ∧
    (queries.Get ("disabled")).map queries.Query.Filter =
      some ("(userAccountControl:1.2.840.113556.1.4.803:=2)") ∧
    (queries.Get ("kerberoasting")).map queries.Query.Filter =
      some ("(&(!(userAccountControl:1.2.840.113556.1.4.803:=2))(samAccountType=805306368)(servicePrincipalName=*)(!sAMAccountName=krbtgt))") ∧
    (queries.Get ("asreproast")).map queries.Query.Filter =
      some ("(&(userAccountControl:1.2.840.113556.1.4.803:=4194304)(!(userAccountControl:1.2.840.113556.1.4.803:=2))(!(objectCategory=computer)))") ∧
    (queries.Get ("unconstraineddelegate")).map queries.Query.Filter =
      some ("(userAccountControl:1.2.840.113556.1.4.803:=524288)") ∧
    (queries.Get ("constraineddelegate")).map queries.Query.Filter =
      some ("(msDS-AllowedToDelegateTo=*)") ∧
    (queries.Get ("resourceconstraineddelegate")).map queries.Query.Filter =
      some ("(msDS-AllowedToActOnBehalfOfOtherIdentity=*)") ∧
    (queries.Get ("esc1")).isSome = true ∧
    (queries.Get ("esc2")).isSome = true ∧
    queries.Get ("dcsync") = none ∧
    (queries.DomainSpecificQueries.lookup ("dcsync")).isSome = true := by
  decide

set_option maxRecDepth 40000 in
/-- Claim C7: every query in the registry (the quick queries and the
permission queries registered by `init()`) has a filter with balanced
parentheses that starts with `(`, ends with `)` and is at most 4096
characters long. -/
theorem C7_registered_filters_wellformed :
    ∀ p ∈ queries.registryQueries, queries.filterOk p.2 = true := by
  have h : queries.registryQueries.all (fun p => queries.filterOk p.2) = true := by
    decide
  intro p hp
  exact List.all_eq_true.mp h p hp

/-- Claim C7, witness: the filter invariants at the registered query
"users". -/
theorem C7_witness :
    queries.filterOk (⟨"(objectClass=user)",
      ["sAMAccountName", "userPrincipalName", "userAccountControl",
       "msDS-AllowedToDelegateTo",
       "msDS-AllowedToActOnBehalfOfOtherIdentity"]⟩ : queries.Query) = true :=
  C7_registered_filters_wellformed (("users", ⟨"(objectClass=user)",
      ["sAMAccountName", "userPrincipalName", "userAccountControl",
       "msDS-AllowedToDelegateTo",
       "msDS-AllowedToActOnBehalfOfOtherIdentity"]⟩)) (by decide)

namespace queries

/-! ## QueryBuilder (src/queries/queries.go lines 60-72 and 482-520)

Go slices alias a backing array, so the frame claim C10 ("`Build` returns a
fresh copy and does not mutate the base query") is stated over an explicit
store: a `Heap` is the list of allocated backing arrays for `[]string`
values, and a slice value is the index of its array.  Strings in Go are
immutable values and are modelled directly as `String`. -/

/-- Store of allocated `[]string` backing arrays. -/
abbrev Heap := List (List String)

/-- A `Query` whose attribute slice is a reference into the heap. -/
structure QueryRef where
  Filter : String
  Attributes : Nat
deriving DecidableEq, Repr

/-- Builder state (src/queries/queries.go lines 61-64): the base query
copied by value (the slice header still points at the registered backing
array) and the parameter map. -/
structure QueryBuilder where
  baseQuery : QueryRef
  params : List (String × String)
deriving DecidableEq, Repr

/-- Model of `NewQueryBuilder` (src/queries/queries.go lines 67-72). -/
def NewQueryBuilder (q : QueryRef) : QueryBuilder := ⟨q, []⟩

/-- Model of `WithParam` (src/queries/queries.go lines 482-485): Go map
assignment, i.e. overwrite the key if present. -/
def WithParam (b : QueryBuilder) (key value : String) : QueryBuilder :=
  { b with params := b.params.filter (fun kv => !(kv.1 == key)) ++ [(key, value)] }

/-- Model of `replaceParams` (src/queries/queries.go lines 513-520):
`strings.ReplaceAll` of each placeholder, one pass per map entry.  (Go map
iteration order is unspecified; the claims below do not depend on the
order, only on the fact that a fresh string is produced.) -/
def replaceParams (b : QueryBuilder) (filter : String) : String :=
  b.params.foldl
    (fun result kv => result.replace ("\x7b" ++ kv.1 ++ "\x7d") kv.2) filter

/-- Model of `Build` (src/queries/queries.go lines 502-510): the result's
filter is the substituted string, and its attribute slice is a freshly
allocated array (`make` + `copy`) holding the base query's attribute
values. -/
def Build (b : QueryBuilder) (h : Heap) : QueryRef × Heap :=
  (⟨replaceParams b b.baseQuery.Filter, h.length⟩,
   h ++ [h.getD b.baseQuery.Attributes []])

end queries

/-- Claim C10: building from a registered base query allocates a fresh
attribute array with the same contents, leaves every existing heap cell
(in particular the base query's attribute array) untouched, and neither
`WithParam` nor `Build` changes the base query record — its filter
template, placeholders included, and its attribute slice reference are
exactly the registered ones. -/
theorem C10_builder_no_mutation :
    ∀ (q : queries.QueryRef) (ps : List (String × String)) (h : queries.Heap),
      q.Attributes < h.length →
      (ps.foldl (fun b kv => queries.WithParam b kv.1 kv.2)
        (queries.NewQueryBuilder q)).baseQuery = q ∧
      (queries.Build (ps.foldl (fun b kv => queries.WithParam b kv.1 kv.2)
        (queries.NewQueryBuilder q)) h).1.Attributes = h.length ∧
      (queries.Build (ps.foldl (fun b kv => queries.WithParam b kv.1 kv.2)
        (queries.NewQueryBuilder q)) h).1.Attributes ≠ q.Attributes ∧
      (queries.Build (ps.foldl (fun b kv => queries.WithParam b kv.1 kv.2)
        (queries.NewQueryBuilder q)) h).2.getD
        ((queries.Build (ps.foldl (fun b kv => queries.WithParam b kv.1 kv.2)
          (queries.NewQueryBuilder q)) h).1.Attributes) [] =
        h.getD q.Attributes [] ∧
      (∀ i, i < h.length →
        (queries.Build (ps.foldl (fun b kv => queries.WithParam b kv.1 kv.2)
          (queries.NewQueryBuilder q)) h).2.getD i [] = h.getD i []) := by
  have hbase : ∀ (ps : List (String × String)) (b : queries.QueryBuilder),
      (ps.foldl (fun b kv => queries.WithParam b kv.1 kv.2) b).baseQuery =
        b.baseQuery := by
    intro ps
    induction ps with
    | nil => intro b; rfl
    | cons kv ps ih => intro b; exact ih _
  intro q ps h hq
  have hb : (ps.foldl (fun b kv => queries.WithParam b kv.1 kv.2)
      (queries.NewQueryBuilder q)).baseQuery = q := hbase ps _
  refine ⟨hb, rfl, by simpa using Nat.ne_of_gt hq, ?_, ?_⟩
  · show (h ++ [h.getD _ []]).getD h.length [] = h.getD q.Attributes []
    rw [hb]
    rw [List.getD_eq_getElem?_getD, List.getElem?_append_right (le_refl _)]
    simp
  · intro i hi
    show (h ++ [h.getD _ []]).getD i [] = h.getD i []
    rw [List.getD_eq_getElem?_getD, List.getElem?_append, if_pos hi,
      List.getD_eq_getElem?_getD]

/-- Claim C10, witness: the theorem applied at a concrete registered query,
one parameter, and a one-cell heap. -/
theorem C10_witness :
    (([(("domain" : String), ("DC=corp,DC=example,DC=com" : String))].foldl
      (fun b kv => queries.WithParam b kv.1 kv.2)
      (queries.NewQueryBuilder ⟨"(objectClass=user)", 0⟩)).baseQuery =
      (⟨"(objectClass=user)", 0⟩ : queries.QueryRef) ∧
     (queries.Build ([(("domain" : String), ("DC=corp,DC=example,DC=com" : String))].foldl
      (fun b kv => queries.WithParam b kv.1 kv.2)
      (queries.NewQueryBuilder ⟨"(objectClass=user)", 0⟩)) ([[("cn" : String)]])).1.Attributes = 1 ∧
     (queries.Build ([(("domain" : String), ("DC=corp,DC=example,DC=com" : String))].foldl
      (fun b kv => queries.WithParam b kv.1 kv.2)
      (queries.NewQueryBuilder ⟨"(objectClass=user)", 0⟩)) ([[("cn" : String)]])).1.Attributes ≠ 0 ∧
     (queries.Build ([(("domain" : String), ("DC=corp,DC=example,DC=com" : String))].foldl
      (fun b kv => queries.WithParam b kv.1 kv.2)
      (queries.NewQueryBuilder ⟨"(objectClass=user)", 0⟩)) ([[("cn" : String)]])).2.getD
       ((queries.Build ([(("domain" : String), ("DC=corp,DC=example,DC=com" : String))].foldl
        (fun b kv => queries.WithParam b kv.1 kv.2)
        (queries.NewQueryBuilder ⟨"(objectClass=user)", 0⟩)) ([[("cn" : String)]])).1.Attributes) [] =
       ([[("cn" : String)]] : queries.Heap).getD 0 [] ∧
     (∀ i, i < ([[("cn" : String)]] : queries.Heap).length →
       (queries.Build ([(("domain" : String), ("DC=corp,DC=example,DC=com" : String))].foldl
        (fun b kv => queries.WithParam b kv.1 kv.2)
        (queries.NewQueryBuilder ⟨"(objectClass=user)", 0⟩)) ([[("cn" : String)]])).2.getD i [] =
       ([[("cn" : String)]] : queries.Heap).getD i [])) :=
  C10_builder_no_mutation ⟨"(objectClass=user)", 0⟩
    ([(("domain" : String), ("DC=corp,DC=example,DC=com" : String))])
    ([[("cn" : String)]]) (by decide)

namespace connect

/-- Retry policy (src/connect/retry.go lines 13-18).  Delays are in
nanoseconds (Go `time.Duration`); `calculateBackoff` passes them through
`float64`, modelled here as exact rational arithmetic. -/
structure RetryConfig where
  MaxAttempts : Nat
  InitialDelay : ℚ
  MaxDelay : ℚ
  Multiplier : ℚ
deriving DecidableEq, Repr

/-- Model of `DefaultRetryConfig` (src/connect/retry.go lines 21-28 with
the constants of the `analyze` package): 3 attempts, 100 ms initial delay,
5 s maximum delay, multiplier 2.0 — these are also the fallback values of
`NewResilientClient` (src/connect/resilient.go lines 24-42). -/
def DefaultRetryConfig : RetryConfig := ⟨3, 100 * 1000000, 5 * 1000000000, 2⟩

/-- Pre-jitter delay of `ResilientClient.calculateBackoff`
(src/connect/resilient.go lines 270-275): exponential growth capped at
`MaxDelay`. -/
def cappedDelay (cfg : RetryConfig) (attempt : Nat) : ℚ :=
  let delay0 := cfg.InitialDelay * cfg.Multiplier ^ (attempt - 1)
  if cfg.MaxDelay < delay0 then cfg.MaxDelay else delay0

/-- Model of `ResilientClient.calculateBackoff` (src/connect/resilient.go
lines 268-281).  Go draws the jitter sign and magnitude from
`time.Now().UnixNano() % 1000`; the draw is the explicit parameter `k`.
The final `time.Duration(...)` conversion truncates toward zero, which for
the nonnegative values produced here is the floor. -/
def calculateBackoff (cfg : RetryConfig) (attempt : Nat) (k : Fin 1000) : Int :=
  ⌊cappedDelay cfg attempt +
    cappedDelay cfg attempt * (1 / 4) * (2 * ((k : Nat) : ℚ) / 1000 - 1)⌋

/-- Expected backoff: the average of `calculateBackoff` over the uniform
jitter draw `k`. -/
def expectedBackoff (cfg : RetryConfig) (attempt : Nat) : ℚ :=
  (∑ k : Fin 1000, (calculateBackoff cfg attempt k : ℚ)) / 1000

theorem cappedDelay_le (cfg : RetryConfig) (attempt : Nat) :
    cappedDelay cfg attempt ≤ cfg.MaxDelay ∨
      cappedDelay cfg attempt = cfg.InitialDelay * cfg.Multiplier ^ (attempt - 1) := by
  simp only [cappedDelay]
  split_ifs with h
  · exact Or.inl (le_refl _)
  · exact Or.inr rfl

theorem cappedDelay_le_max (cfg : RetryConfig) (attempt : Nat) :
    cappedDelay cfg attempt ≤ cfg.MaxDelay := by
  simp only [cappedDelay]
  split_ifs with h
  · exact le_refl _
  · exact le_of_not_lt h

theorem cappedDelay_nonneg (cfg : RetryConfig) (attempt : Nat)
    (h0 : 0 ≤ cfg.InitialDelay) (h1 : 0 ≤ cfg.Multiplier)
    (h2 : 0 ≤ cfg.MaxDelay) : 0 ≤ cappedDelay cfg attempt := by
  simp only [cappedDelay]
  split_ifs with h
  · exact h2
  · exact mul_nonneg h0 (pow_nonneg h1 _)

theorem cappedDelay_mono (cfg : RetryConfig) (i j : Nat)
    (h0 : 0 ≤ cfg.InitialDelay) (h1 : 1 ≤ cfg.Multiplier) (hij : i ≤ j) :
    cappedDelay cfg i ≤ cappedDelay cfg j := by
  have hd : cfg.InitialDelay * cfg.Multiplier ^ (i - 1) ≤
      cfg.InitialDelay * cfg.Multiplier ^ (j - 1) :=
    mul_le_mul_of_nonneg_left (pow_le_pow_right₀ h1 (by omega)) h0
  have e1 : cappedDelay cfg i =
      min cfg.MaxDelay (cfg.InitialDelay * cfg.Multiplier ^ (i - 1)) := by
    simp only [cappedDelay]
    split_ifs with h
    · exact (min_eq_left (le_of_lt h)).symm
    · exact (min_eq_right (le_of_not_lt h)).symm
  have e2 : cappedDelay cfg j =
      min cfg.MaxDelay (cfg.InitialDelay * cfg.Multiplier ^ (j - 1)) := by
    simp only [cappedDelay]
    split_ifs with h
    · exact (min_eq_left (le_of_lt h)).symm
    · exact (min_eq_right (le_of_not_lt h)).symm
  rw [e1, e2]
  exact min_le_min (le_refl _) hd

end connect

/-- Claim C5, counterexample: with the default configuration and a maximal
jitter draw, the backoff of attempt 7 is 6247500000 ns, which exceeds
MaxDelay = 5000000000 ns — the jitter is added after the cap, so the
computed delay is not bounded by `maxDelay` as claimed. -/
theorem C5_counterexample :
    connect.DefaultRetryConfig.MaxDelay = 5000000000 ∧
    5000000000 <
      connect.calculateBackoff connect.DefaultRetryConfig 7 ⟨999, by norm_num⟩ := by
  constructor
  · norm_num [connect.DefaultRetryConfig]
  · have hc : connect.cappedDelay connect.DefaultRetryConfig 7 = 5000000000 := by
      unfold connect.cappedDelay
      norm_num [connect.DefaultRetryConfig]
    unfold connect.calculateBackoff
    rw [hc]
    have he : (5000000000 : ℚ) + 5000000000 * (1 / 4) *
        (2 * ((999 : Nat) : ℚ) / 1000 - 1) = ((6247500000 : Int) : ℚ) := by
      norm_num
    rw [he, Int.floor_intCast]
    norm_num

/-- Claim C5, amended: the pre-jitter delay is capped at `maxDelay`, the
jittered backoff is at most `(5/4) · maxDelay` (the ±25 % jitter is applied
after the cap), and the expected backoff is monotone in the attempt
number. -/
theorem C5_backoff_amended :
    ∀ (cfg : connect.RetryConfig) (i j : Nat) (k : Fin 1000),
      0 ≤ cfg.InitialDelay → 1 ≤ cfg.Multiplier → 0 ≤ cfg.MaxDelay →
      i ≤ j →
      connect.cappedDelay cfg i ≤ cfg.MaxDelay ∧
      ((connect.calculateBackoff cfg i k : ℚ) ≤ 5 / 4 * cfg.MaxDelay) ∧
      connect.expectedBackoff cfg i ≤ connect.expectedBackoff cfg j := by
  intro cfg i j k h0 h1 h2 hij
  have hm0 : (0 : ℚ) ≤ cfg.Multiplier := le_trans (by norm_num) h1
  have hdi0 : 0 ≤ connect.cappedDelay cfg i := connect.cappedDelay_nonneg cfg i h0 hm0 h2
  have hkb : ((k : Nat) : ℚ) ≤ 999 := by
    have := k.isLt
    exact_mod_cast Nat.le_of_lt_succ this
  have hk0 : (0 : ℚ) ≤ ((k : Nat) : ℚ) := by positivity
  refine ⟨connect.cappedDelay_le_max cfg i, ?_, ?_⟩
  · simp only [connect.calculateBackoff]
    have hfl := Int.floor_le (connect.cappedDelay cfg i +
      connect.cappedDelay cfg i * (1 / 4) * (2 * ((k : Nat) : ℚ) / 1000 - 1))
    have hub : connect.cappedDelay cfg i +
        connect.cappedDelay cfg i * (1 / 4) * (2 * ((k : Nat) : ℚ) / 1000 - 1) ≤
        5 / 4 * cfg.MaxDelay := by
      have hcap := connect.cappedDelay_le_max cfg i
      nlinarith [hdi0, hkb, hk0, hcap]
    exact le_trans hfl hub
  · have hpt : ∀ t : Fin 1000,
        (connect.calculateBackoff cfg i t : ℚ) ≤
          (connect.calculateBackoff cfg j t : ℚ) := by
      intro t
      simp only [connect.calculateBackoff]
      have hd := connect.cappedDelay_mono cfg i j h0 h1 hij
      have htb : ((t : Nat) : ℚ) ≤ 999 := by
        have := t.isLt
        exact_mod_cast Nat.le_of_lt_succ this
      have ht0 : (0 : ℚ) ≤ ((t : Nat) : ℚ) := by positivity
      have harg : connect.cappedDelay cfg i +
          connect.cappedDelay cfg i * (1 / 4) * (2 * ((t : Nat) : ℚ) / 1000 - 1) ≤
          connect.cappedDelay cfg j +
          connect.cappedDelay cfg j * (1 / 4) * (2 * ((t : Nat) : ℚ) / 1000 - 1) := by
        nlinarith [hd, hdi0, ht0, htb]
      exact_mod_cast Int.floor_le_floor harg
    unfold connect.expectedBackoff
    have hsum : (∑ t : Fin 1000, (connect.calculateBackoff cfg i t : ℚ)) ≤
        ∑ t : Fin 1000, (connect.calculateBackoff cfg j t : ℚ) :=
      Finset.sum_le_sum (fun t _ => hpt t)
    exact div_le_div_of_nonneg_right hsum (by norm_num) |>.trans (le_refl _)

/-- Claim C5, witness: the amended theorem at the default configuration,
attempts 1 ≤ 2, jitter draw 0. -/
theorem C5_witness :
    connect.cappedDelay connect.DefaultRetryConfig 1 ≤
      connect.DefaultRetryConfig.MaxDelay ∧
    ((connect.calculateBackoff connect.DefaultRetryConfig 1 ⟨0, by norm_num⟩ : ℚ) ≤
      5 / 4 * connect.DefaultRetryConfig.MaxDelay) ∧
    connect.expectedBackoff connect.DefaultRetryConfig 1 ≤
      connect.expectedBackoff connect.DefaultRetryConfig 2 :=
  C5_backoff_amended connect.DefaultRetryConfig 1 2 ⟨0, by norm_num⟩
    (by norm_num [connect.DefaultRetryConfig])
    (by norm_num [connect.DefaultRetryConfig])
    (by norm_num [connect.DefaultRetryConfig])
    (by norm_num)

namespace connect

/-- Channel operations a `StreamSearch` producer goroutine can perform on
its two result channels. -/
inductive StreamEvent (α ε : Type) where
  | entrySend (e : α)
  | errSend (x : ε)
  | closeErr
  | closeEntries
deriving DecidableEq, Repr

/-- Trace of channel operations of the producer goroutine of
`ldapClient.StreamSearch` (src/connect/retry.go lines 227-252) and of
`ResilientClient.StreamSearch` (src/connect/resilient.go lines 118-218).
Both goroutines push entries onto the entry channel in order; every
terminating path of the body sends at most one value on the capacity-1
error channel (an `errChan <- err` directly before `return`, or the final
send after the retry loop) and then returns, which runs the deferred
closes.  The defers are registered as `close(entriesChan)` first and
`close(errChan)` second, and Go executes deferred calls in reverse order
of registration, so `close(errChan)` runs first and `close(entriesChan)`
runs last. -/
def StreamSearchTrace {α ε : Type} (sent : List α) (finalErr : Option ε) :
    List (StreamEvent α ε) :=
  sent.map .entrySend ++
    (match finalErr with
     | some e => [.errSend e]
     | none => []) ++ [.closeErr, .closeEntries]

/-- Position of the first occurrence of an event in a trace (the trace
length if the event never occurs). -/
def idxOf {α ε : Type} [DecidableEq α] [DecidableEq ε] (x : StreamEvent α ε)
    (l : List (StreamEvent α ε)) : Nat :=
  (l.takeWhile (fun y => !(y == x))).length

/-- Recogniser of error-channel sends. -/
def isErrSend {α ε : Type} : StreamEvent α ε → Bool
  | .errSend _ => true
  | _ => false

theorem takeWhile_append_all {α : Type} (p : α → Bool) (A B : List α)
    (h : ∀ a ∈ A, p a = true) : (A ++ B).takeWhile p = A ++ B.takeWhile p := by
  induction A with
  | nil => rfl
  | cons a A ih =>
    simp only [List.cons_append, List.takeWhile_cons, h a (by simp), if_true]
    rw [ih (fun x hx => h x (by simp [hx]))]

theorem count_map_entrySend_zero {α ε : Type} [DecidableEq α] [DecidableEq ε]
    (sent : List α) (x : StreamEvent α ε) (hx : ∀ a, x ≠ .entrySend a) :
    (sent.map (StreamEvent.entrySend : α → StreamEvent α ε)).count x = 0 := by
  rw [List.count_eq_zero]
  intro hmem
  rcases List.mem_map.mp hmem with ⟨a, _, hfa⟩
  exact hx a hfa.symm

theorem countP_map_entrySend_zero {α ε : Type} [DecidableEq α] [DecidableEq ε]
    (sent : List α) :
    (sent.map (StreamEvent.entrySend : α → StreamEvent α ε)).countP isErrSend = 0 := by
  rw [List.countP_eq_zero]
  intro a ha
  rcases List.mem_map.mp ha with ⟨b, _, hfb⟩
  rw [← hfb]
  simp [isErrSend]

theorem map_entrySend_ne {α ε : Type} [DecidableEq α] [DecidableEq ε]
    (sent : List α) (x : StreamEvent α ε) (hx : ∀ a, x ≠ .entrySend a) :
    ∀ y ∈ sent.map (StreamEvent.entrySend : α → StreamEvent α ε),
      (!(y == x)) = true := by
  intro y hy
  rcases List.mem_map.mp hy with ⟨a, _, hfa⟩
  subst hfa
  simp only [Bool.not_eq_true']
  exact beq_eq_false_iff_ne.mpr (fun hcontra => hx a hcontra.symm)

end connect

/-- Claim C2, counterexample: in a run that delivers no entries and ends
with an error, the producer sends the error value and closes the error
channel before it closes the entry channel (Go runs the two deferred
closes in reverse order of registration), so the entry channel is NOT
closed strictly before the error channel receives its value. -/
theorem C2_counterexample :
    connect.StreamSearchTrace ([] : List Nat) (some (0 : Nat)) =
      [.errSend 0, .closeErr, .closeEntries] ∧
    ¬ connect.idxOf .closeEntries
        (connect.StreamSearchTrace ([] : List Nat) (some (0 : Nat))) <
      connect.idxOf (.errSend 0)
        (connect.StreamSearchTrace ([] : List Nat) (some (0 : Nat))) := by
  refine ⟨by rfl, by decide⟩

/-- Claim C2, amended: for every `StreamSearch` run, the entry channel is
closed exactly once and the error channel is closed exactly once; at most
one value is sent on the error channel, and any such value is sent before
the error channel closes; and the error channel is closed strictly BEFORE
the entry channel is closed (the reverse of the claimed order). -/
theorem C2_stream_close_order :
    ∀ (α ε : Type) (_inst1 : DecidableEq α) (_inst2 : DecidableEq ε)
      (sent : List α) (err : Option ε),
    (connect.StreamSearchTrace sent err).count .closeEntries = 1 ∧
    (connect.StreamSearchTrace sent err).count .closeErr = 1 ∧
    (connect.StreamSearchTrace sent err).countP connect.isErrSend ≤ 1 ∧
    connect.idxOf .closeErr (connect.StreamSearchTrace sent err) <
      connect.idxOf .closeEntries (connect.StreamSearchTrace sent err) ∧
    (∀ e : ε, err = some e →
      connect.idxOf (.errSend e) (connect.StreamSearchTrace sent err) <
        connect.idxOf .closeErr (connect.StreamSearchTrace sent err)) := by
  intro α ε _inst1 _inst2 sent err
  unfold connect.StreamSearchTrace
  rcases err with _ | e
  · refine ⟨?_, ?_, ?_, ?_, ?_⟩
    · rw [List.count_append, List.count_append,
        connect.count_map_entrySend_zero sent _ (fun a h => by cases h)]
      rfl
    · rw [List.count_append, List.count_append,
        connect.count_map_entrySend_zero sent _ (fun a h => by cases h)]
      rfl
    · rw [List.countP_append, List.countP_append,
        connect.countP_map_entrySend_zero sent]
      simp [connect.isErrSend]
    · unfold connect.idxOf
      rw [List.append_nil, connect.takeWhile_append_all _ _ _
          (connect.map_entrySend_ne sent _ (fun a h => by cases h)),
        connect.takeWhile_append_all _ _ _
          (connect.map_entrySend_ne sent _ (fun a h => by cases h))]
      simp
    · intro e he
      cases he
  · refine ⟨?_, ?_, ?_, ?_, ?_⟩
    · rw [List.count_append, List.count_append,
        connect.count_map_entrySend_zero sent _ (fun a h => by cases h)]
      rfl
    · rw [List.count_append, List.count_append,
        connect.count_map_entrySend_zero sent _ (fun a h => by cases h)]
      rfl
    · rw [List.countP_append, List.countP_append,
        connect.countP_map_entrySend_zero sent]
      simp [connect.isErrSend]
    · unfold connect.idxOf
      rw [List.append_assoc, connect.takeWhile_append_all _ _ _
          (connect.map_entrySend_ne sent _ (fun a h => by cases h)),
        connect.takeWhile_append_all _ _ _
          (connect.map_entrySend_ne sent _ (fun a h => by cases h))]
      simp
    · intro x hx
      cases hx
      unfold connect.idxOf
      rw [List.append_assoc, connect.takeWhile_append_all _ _ _
          (connect.map_entrySend_ne sent _ (fun a h => by cases h)),
        connect.takeWhile_append_all _ _ _
          (connect.map_entrySend_ne sent _ (fun a h => by cases h))]
      simp

/-- Claim C2, witness: the amended theorem at a concrete run of two
entries and a terminal error. -/
theorem C2_stream_close_order_witness :
    ((connect.StreamSearchTrace ([10, 20] : List Nat) (some (7 : Nat))).count
        .closeEntries = 1 ∧
     (connect.StreamSearchTrace ([10, 20] : List Nat) (some (7 : Nat))).count
        .closeErr = 1 ∧
     (connect.StreamSearchTrace ([10, 20] : List Nat) (some (7 : Nat))).countP
        connect.isErrSend ≤ 1 ∧
     connect.idxOf .closeErr
        (connect.StreamSearchTrace ([10, 20] : List Nat) (some (7 : Nat))) <
       connect.idxOf .closeEntries
        (connect.StreamSearchTrace ([10, 20] : List Nat) (some (7 : Nat))) ∧
     (∀ e : Nat, some (7 : Nat) = some e →
       connect.idxOf (.errSend e)
          (connect.StreamSearchTrace ([10, 20] : List Nat) (some (7 : Nat))) <
         connect.idxOf .closeErr
          (connect.StreamSearchTrace ([10, 20] : List Nat) (some (7 : Nat))))) :=
  C2_stream_close_order Nat Nat inferInstance inferInstance ([10, 20]) (some 7)

namespace connect

/-! ## TLS version negotiation (connect configuration file,
`dialWithTLSNegotiation` lines 175-230 and `isTLSError` lines 233-256) -/

/-- ASCII lowercasing (Go `strings.ToLower`; the error texts and patterns
involved are ASCII). -/
def lowerAscii (c : Char) : Char :=
  if 'A' ≤ c ∧ c ≤ 'Z' then Char.ofNat (c.toNat + 32) else c

/-- Leading-match test on character lists. -/
def startsWithList : List Char → List Char → Bool
  | [], _ => true
  | _ :: _, [] => false
  | c :: cs, d :: ds => c = d && startsWithList cs ds

/-- Substring containment on character lists (Go `strings.Contains`). -/
def containsSub (s sub : List Char) : Bool :=
  (List.range (s.length + 1)).any (fun i => startsWithList sub (s.drop i))

/-- The TLS-failure substrings of `isTLSError` (lines 239-246). -/
def tlsErrorStrings : List String :=
  ["tls", "handshake failure", "protocol version", "unsupported protocol",
   "no supported versions", "connection reset by peer"]

/-- Model of `isTLSError` (lines 233-256): the lowercased error text
contains one of the listed substrings (the patterns are lowercased too, as
in the source). -/
def isTLSError (errStr : String) : Bool :=
  tlsErrorStrings.any (fun t =>
    containsSub (errStr.data.map lowerAscii) (t.data.map lowerAscii))

/-- The `crypto/tls.Config` fields the negotiation touches; `none` models
the Go zero value (version not pinned). -/
structure TLSConf where
  insecureSkipVerify : Bool
  minVersion : Option Nat
  maxVersion : Option Nat
deriving DecidableEq, Repr

/-- `versionsToTry` (lines 178-183): 772 = 0x0304 TLS 1.3, 771 = TLS 1.2,
770 = TLS 1.1, 769 = TLS 1.0, in order of preference. -/
def versionsToTry : List Nat := [772, 771, 770, 769]

/-- Per-attempt configuration (lines 188-195): clone the base config, set
`MinVersion` to the candidate and set `MaxVersion` to the candidate only
when `i < len(versionsToTry)-1` — the last attempt leaves `MaxVersion` at
the base value (the Go zero value, i.e. unpinned). -/
def attemptConf (base : TLSConf) (i v : Nat) : TLSConf :=
  { base with
    minVersion := some v
    maxVersion :=
      if i < versionsToTry.length - 1 then some v else base.maxVersion }

/-- Outcome of one `ldap.DialURL` attempt: a connection (with the outcome
of the subsequent `conn.StartTLS` upgrade, relevant only in StartTLS
modes), or a dial error with its text. -/
inductive DialOutcome where
  | ok (startTLSErr : Option String)
  | err (msg : String)

/-- The loop of lines 188-226 over the remaining (index, version) pairs:
a dial error continues the cascade exactly when `isTLSError` holds of its
text, and otherwise aborts; a successful dial in a StartTLS mode whose
upgrade fails continues unconditionally (lines 201-207); a successful dial
otherwise ends the cascade.  Returns the configurations attempted, in
order, and whether a connection was established. -/
def negotiateList (dial : TLSConf → DialOutcome) (startTLS : Bool)
    (base : TLSConf) : List (Nat × Nat) → List TLSConf × Bool
  | [] => ([], false)
  | (i, v) :: rest =>
    let conf := attemptConf base i v
    match dial conf with
    | .err msg =>
      if isTLSError msg then
        let r := negotiateList dial startTLS base rest
        (conf :: r.1, r.2)
      else ([conf], false)
    | .ok stErr =>
      if startTLS then
        match stErr with
        | some _ =>
          let r := negotiateList dial startTLS base rest
          (conf :: r.1, r.2)
        | none => ([conf], true)
      else ([conf], true)

/-- The indexed version list the loop iterates over. -/
def versionAttempts : List (Nat × Nat) := [(0, 772), (1, 771), (2, 770), (3, 769)]

/-- Model of `dialWithTLSNegotiation` (lines 175-230). -/
def dialWithTLSNegotiation (dial : TLSConf → DialOutcome) (startTLS : Bool)
    (base : TLSConf) : List TLSConf × Bool :=
  negotiateList dial startTLS base versionAttempts

/-- Condition under which an attempt lets the cascade continue: a dial
error matching the TLS strings, or (in StartTLS mode) a connection whose
upgrade failed. -/
def continues (dial : TLSConf → DialOutcome) (st : Bool) (conf : TLSConf) : Bool :=
  match dial conf with
  | .err msg => isTLSError msg
  | .ok stErr => st && stErr.isSome

theorem negotiateList_take (dial : TLSConf → DialOutcome) (st : Bool)
    (base : TLSConf) : ∀ ps : List (Nat × Nat),
    (negotiateList dial st base ps).1 =
      (ps.map (fun p => attemptConf base p.1 p.2)).take
        (negotiateList dial st base ps).1.length := by
  intro ps
  induction ps with
  | nil => rfl
  | cons p rest ih =>
    rcases p with ⟨i, v⟩
    simp only [negotiateList]
    cases hdial : dial (attemptConf base i v) with
    | err msg =>
      by_cases htls : isTLSError msg = true
      · simp only [htls, if_true, List.map_cons, List.length_cons,
          List.take_succ_cons, List.cons.injEq]
        exact ⟨trivial, ih⟩
      · simp only [Bool.not_eq_true] at htls
        simp [htls]
    | ok stErr =>
      cases st with
      | false => simp
      | true =>
        cases stErr with
        | none => simp
        | some m =>
          simp only [if_true, List.map_cons, List.length_cons,
            List.take_succ_cons, List.cons.injEq]
          exact ⟨trivial, ih⟩

theorem negotiateList_continues (dial : TLSConf → DialOutcome) (st : Bool)
    (base : TLSConf) : ∀ (ps : List (Nat × Nat)) (i : Nat),
    i + 1 < (negotiateList dial st base ps).1.length →
    continues dial st ((negotiateList dial st base ps).1.getD i
      ⟨false, none, none⟩) = true := by
  intro ps
  induction ps with
  | nil => intro i h; simp [negotiateList] at h
  | cons p rest ih =>
    rcases p with ⟨j, v⟩
    intro i
    simp only [negotiateList]
    cases hdial : dial (attemptConf base j v) with
    | err msg =>
      by_cases htls : isTLSError msg = true
      · simp only [htls, if_true]
        intro h
        cases i with
        | zero => simp [continues, hdial, htls]
        | succ i =>
          simp only [List.length_cons, Nat.succ_lt_succ_iff] at h
          exact ih i h
      · simp only [Bool.not_eq_true] at htls
        simp [htls]
    | ok stErr =>
      cases st with
      | false => simp
      | true =>
        cases stErr with
        | none => simp
        | some m =>
          simp only [if_true]
          intro h
          cases i with
          | zero => simp [continues, hdial]
          | succ i =>
            simp only [List.length_cons, Nat.succ_lt_succ_iff] at h
            exact ih i h

theorem negotiateList_length_pos (dial : TLSConf → DialOutcome) (st : Bool)
    (base : TLSConf) (p : Nat × Nat) (rest : List (Nat × Nat)) :
    1 ≤ (negotiateList dial st base (p :: rest)).1.length := by
  rcases p with ⟨i, v⟩
  simp only [negotiateList]
  cases hdial : dial (attemptConf base i v) with
  | err msg =>
    by_cases htls : isTLSError msg = true
    · simp [htls]
    · simp only [Bool.not_eq_true] at htls
      simp [htls]
  | ok stErr =>
    cases st with
    | false => simp
    | true =>
      cases stErr with
      | none => simp
      | some m => simp

end connect

/-- Claim C6, counterexample: when every dial attempt fails with a TLS
protocol-version error, all four versions are tried in order with
`MinVersion` pinned — but the fourth and last attempt (TLS 1.0) does NOT
pin `MaxVersion`: the loop sets `MaxVersion` only for attempt indices
below `len(versionsToTry)-1`, so the last configuration keeps the
unpinned zero value, contradicting "every attempt pins both MinVersion
and MaxVersion". -/
theorem C6_counterexample :
    ((connect.dialWithTLSNegotiation
      (fun _ => .err ("remote error: tls: protocol version not supported"))
      false ⟨false, none, none⟩).1.map connect.TLSConf.minVersion =
      [some 772, some 771, some 770, some 769]) ∧
    ((connect.dialWithTLSNegotiation
      (fun _ => .err ("remote error: tls: protocol version not supported"))
      false ⟨false, none, none⟩).1.map connect.TLSConf.maxVersion =
      [some 772, some 771, some 770, none]) := by
  refine ⟨by rfl, by rfl⟩

/-- Claim C6, amended: the candidate versions are tried in the order TLS
1.3, 1.2, 1.1, 1.0 with `MinVersion` pinned to the candidate on every
attempt; the first three attempts also pin `MaxVersion` to the candidate,
but a fourth attempt leaves `MaxVersion` unpinned; at least one attempt is
made; and a later attempt is reached only when the previous one either
failed to dial with an error whose text matches the TLS-failure strings,
or (in a StartTLS mode) connected and then failed the upgrade — a non-TLS
dial error aborts the cascade. -/
theorem C6_tls_negotiation_amended :
    ∀ (dial : connect.TLSConf → connect.DialOutcome) (st : Bool)
      (base : connect.TLSConf), base.maxVersion = none →
      ((connect.dialWithTLSNegotiation dial st base).1.map
          connect.TLSConf.minVersion =
        ([some 772, some 771, some 770, some 769].take
          (connect.dialWithTLSNegotiation dial st base).1.length)) ∧
      (∀ c ∈ ((connect.dialWithTLSNegotiation dial st base).1.take 3),
        c.maxVersion = c.minVersion) ∧
      (∀ c ∈ ((connect.dialWithTLSNegotiation dial st base).1.drop 3),
        c.maxVersion = none) ∧
      1 ≤ (connect.dialWithTLSNegotiation dial st base).1.length ∧
      (∀ i : Nat, i + 1 <
          (connect.dialWithTLSNegotiation dial st base).1.length →
        connect.continues dial st
          ((connect.dialWithTLSNegotiation dial st base).1.getD i
            ⟨false, none, none⟩) = true) := by
  intro dial st base hbase
  have h1 := connect.negotiateList_take dial st base connect.versionAttempts
  have hlen : (connect.negotiateList dial st base
      connect.versionAttempts).1.length ≤ 4 := by
    have h2 := congrArg List.length h1
    rw [List.length_take, List.length_map] at h2
    have h3 : connect.versionAttempts.length = 4 := rfl
    rw [h3] at h2
    omega
  refine ⟨?_, ?_, ?_,
    connect.negotiateList_length_pos dial st base _ _,
    fun i h => connect.negotiateList_continues dial st base _ i h⟩
  · unfold connect.dialWithTLSNegotiation
    generalize hg : (connect.negotiateList dial st base
      connect.versionAttempts).1.length = n at h1 hlen
    rw [h1]
    interval_cases n <;>
      simp [connect.versionAttempts, connect.versionsToTry, connect.attemptConf]
  · unfold connect.dialWithTLSNegotiation
    generalize hg : (connect.negotiateList dial st base
      connect.versionAttempts).1.length = n at h1 hlen
    rw [h1]
    interval_cases n <;>
      simp [connect.versionAttempts, connect.versionsToTry, connect.attemptConf]
  · unfold connect.dialWithTLSNegotiation
    generalize hg : (connect.negotiateList dial st base
      connect.versionAttempts).1.length = n at h1 hlen
    rw [h1]
    interval_cases n <;>
      simp [connect.versionAttempts, connect.versionsToTry, connect.attemptConf,
        hbase]

/-- Claim C6, witness: the amended theorem at the dial oracle that always
fails with a TLS protocol-version error, no StartTLS, and the unpinned
base configuration. -/
theorem C6_witness :
    ((connect.dialWithTLSNegotiation
        (fun _ => .err ("remote error: tls: protocol version not supported"))
        false ⟨false, none, none⟩).1.map connect.TLSConf.minVersion =
      ([some 772, some 771, some 770, some 769].take
        (connect.dialWithTLSNegotiation
          (fun _ => .err ("remote error: tls: protocol version not supported"))
          false ⟨false, none, none⟩).1.length)) ∧
    (∀ c ∈ ((connect.dialWithTLSNegotiation
        (fun _ => .err ("remote error: tls: protocol version not supported"))
        false ⟨false, none, none⟩).1.take 3),
      c.maxVersion = c.minVersion) ∧
    (∀ c ∈ ((connect.dialWithTLSNegotiation
        (fun _ => .err ("remote error: tls: protocol version not supported"))
        false ⟨false, none, none⟩).1.drop 3),
      c.maxVersion = none) ∧
    1 ≤ (connect.dialWithTLSNegotiation
        (fun _ => .err ("remote error: tls: protocol version not supported"))
        false ⟨false, none, none⟩).1.length ∧
    (∀ i : Nat, i + 1 <
        (connect.dialWithTLSNegotiation
          (fun _ => .err ("remote error: tls: protocol version not supported"))
          false ⟨false, none, none⟩).1.length →
      connect.continues
        (fun _ => .err ("remote error: tls: protocol version not supported"))
        false
        ((connect.dialWithTLSNegotiation
          (fun _ => .err ("remote error: tls: protocol version not supported"))
          false ⟨false, none, none⟩).1.getD i
            ⟨false, none, none⟩) = true) :=
  C6_tls_negotiation_amended
    (fun _ => .err ("remote error: tls: protocol version not supported"))
    false ⟨false, none, none⟩ (by rfl)
